import Mathlib

/-
  Verification of the ElderCareCompanion alert and risk-scoring core.

  The embedding mirrors src/data_processor.py (record normalization),
  src/alert_system.py (rule-based alert generation) and
  src/predictive_models.py (the three risk predictors).

  Modeling conventions:
  - pandas cells of dynamic type are modeled by the Cell inductive; NaN is
    Cell.na.  A pandas map over a dict sends any value that is not a key
    to NaN, which mapYesNo reproduces.
  - timestamps are abstract instants (Nat, seconds); the string form of a
    parsable timestamp is its decimal rendering, since no claim depends on
    the concrete calendar format.
  - column-wise pandas operations that raise on any bad element are
    modeled all-or-nothing (mapRowsE / mapRowsO).
  - the alert rule engine and the predictors consume normalized frames, so
    their row types carry the already-typed fields exactly as the
    normalized dataframes do (health threshold flags stay Yes/No strings,
    safety flags are booleans, reminder sent/acknowledged are booleans).
-/

namespace ElderCare

/-- Dynamically typed pandas cell: string, boolean, integer, instant,
time-of-day, calendar date, or missing (NaN). -/
inductive Cell where
  | str (s : String)
  | bool (b : Bool)
  | int (n : Nat)
  | time (n : Nat)
  | timeOfDay (n : Nat)
  | date (n : Nat)
  | na
deriving DecidableEq, Repr

/-- Typed error raised by the normalizer when a field fails parsing. -/
inductive NormError where
  | malformedField (msg : String)
deriving DecidableEq, Repr

/-- Text rendering of a cell, modeling Python str() for message building. -/
def cellText : Cell → String
  | .str s => s
  | .bool b => toString b
  | .int n => toString n
  | .time n => toString n
  | .timeOfDay n => toString n
  | .date n => toString n
  | .na => "nan"

/-- Column-wise fallible transformation: the whole batch fails as soon as
one element fails, as a pandas column conversion does. -/
def mapRowsE (f : α → Except NormError β) : List α → Except NormError (List β)
  | [] => .ok []
  | x :: xs =>
    match f x with
    | .error e => .error e
    | .ok y =>
      match mapRowsE f xs with
      | .error e => .error e
      | .ok ys => .ok (y :: ys)

/-- Column-wise partial transformation (None models a raised exception
observed before any assignment happened). -/
def mapRowsO (f : α → Option β) : List α → Option (List β)
  | [] => some []
  | x :: xs =>
    match f x, mapRowsO f xs with
    | some y, some ys => some (y :: ys)
    | _, _ => none

/-- Decimal value of a digit run. -/
def digitsToNat (ds : List Char) : Nat :=
  ds.foldl (fun n c => 10 * n + (c.toNat - 48)) 0

/-- Numeric parse of a character run: a nonempty all-digit run and
nothing else. -/
def charsToNat? (ds : List Char) : Option Nat :=
  if ds.isEmpty then none
  else if ds.all Char.isDigit then some (digitsToNat ds) else none

/-- Numeric parse of a string. -/
def strToNat? (s : String) : Option Nat := charsToNat? s.data

/-- Split a character run at every occurrence of a separator. -/
def splitOnChar (sep : Char) : List Char → List (List Char)
  | [] => [[]]
  | c :: rest =>
    let r := splitOnChar sep rest
    if c = sep then [] :: r
    else
      match r with
      | g :: gs => (c :: g) :: gs
      | [] => [[c]]

/-- pd.to_datetime on a column entry: an instant passes through, a
timestamp string parses to its instant, anything else fails (models the
raised parse error; instants are abstract, their string form decimal). -/
def toInstant : Cell → Except NormError Nat
  | .str s =>
    match strToNat? s with
    | some n => .ok n
    | none => .error (.malformedField "unparsable timestamp")
  | .time n => .ok n
  | _ => .error (.malformedField "timestamp not convertible to datetime")

/-- series.map with the dict sending Yes to True and No to False: every
value that is not one of the two keys becomes NaN. -/
def mapYesNo (c : Cell) : Cell :=
  if c = .str "Yes" then .bool true
  else if c = .str "No" then .bool false
  else .na

/-- Parse an HH:MM:SS string to seconds after midnight. -/
def parseHMS (s : String) : Option Nat :=
  match splitOnChar ':' s.data with
  | [h, m, sec] =>
    match charsToNat? h, charsToNat? m, charsToNat? sec with
    | some a, some b, some c => some (a * 3600 + b * 60 + c)
    | _, _, _ => none
  | _ => none

/-- pd.to_datetime with format HH:MM:SS on a column entry: only strings in
that shape convert; in particular an already-converted time-of-day value
raises (datetime.time is not convertible to datetime). -/
def toTimeOfDay : Cell → Except NormError Nat
  | .str s =>
    match parseHMS s with
    | some v => .ok v
    | none => .error (.malformedField "unparsable scheduled time")
  | _ => .error (.malformedField "scheduled time not convertible to datetime")

/-- First match of the regular expression digits-slash-digits inside a
character list, as re.search finds it: at each start position a maximal
digit run, then a slash, then a nonempty digit run. -/
def extractBPAux : List Char → Option (List Char × List Char)
  | [] => none
  | c :: rest =>
    if c.isDigit then
      match (c :: rest).span Char.isDigit with
      | (ds, restAfter) =>
        match restAfter with
        | '/' :: rest2 =>
          let ds2 := rest2.takeWhile Char.isDigit
          if ds2.isEmpty then extractBPAux rest else some (ds, ds2)
        | _ => extractBPAux rest
    else extractBPAux rest

/-- series.str.extract with pattern digits-slash-digits followed by int
conversion of both capture groups, for one cell. -/
def extractBP (s : String) : Option (Nat × Nat) :=
  (extractBPAux s.data).map (fun p => (digitsToNat p.1, digitsToNat p.2))

/-- Spec-side reading of the SSS/DDD shape: the whole value is a nonempty
digit run, one slash, and a nonempty digit run. -/
def isFullBPPattern (s : String) : Bool :=
  match splitOnChar '/' s.data with
  | [a, b] => (!a.isEmpty) && (!b.isEmpty) && a.all Char.isDigit && b.all Char.isDigit
  | _ => false

/-! Raw batch row types for the normalizer (src/data_processor.py).
Fields that normalization may retype are Cell valued; columns created by
normalization start as Cell.na (absent). -/

/-- Raw or normalized health monitoring record. -/
structure RawHealth where
  device : String
  timestamp : Cell
  date : Cell
  heartRate : Nat
  bloodPressure : String
  glucose : Nat
  spo2 : Nat
  systolic : Cell
  diastolic : Cell
  spo2Short : Cell
  hrFlag : String
  alertTriggered : String
deriving DecidableEq, Repr

/-- Raw or normalized safety monitoring record. -/
structure RawSafety where
  device : String
  timestamp : Cell
  date : Cell
  movement : String
  fallDetected : Cell
  impact : String
  inactivity : Option Nat
  location : String
  alertTriggered : Cell
  caregiverNotified : Cell
deriving DecidableEq, Repr

/-- Raw or normalized reminder record. -/
structure RawReminder where
  device : String
  timestamp : Cell
  date : Cell
  rtype : String
  scheduledTime : Cell
  sent : Cell
  ack : Cell
deriving DecidableEq, Repr

/-- process_health_data on one record: timestamp to datetime, derived
date, blood pressure split into integer systolic and diastolic (the whole
column conversion raises when the digits-slash-digits search fails on any
value), and the oxygen saturation alias column. -/
def processHealthRow (r : RawHealth) : Except NormError RawHealth :=
  match toInstant r.timestamp with
  | .error e => .error e
  | .ok n =>
    match extractBP r.bloodPressure with
    | some p =>
      .ok { r with
        timestamp := Cell.time n
        date := Cell.date (n / 86400)
        systolic := Cell.int p.1
        diastolic := Cell.int p.2
        spo2Short := Cell.int r.spo2 }
    | none => .error (.malformedField "cannot convert blood pressure to int")

/-- process_health_data over a batch. -/
def process_health_data (df : List RawHealth) : Except NormError (List RawHealth) :=
  mapRowsE processHealthRow df

/-- process_safety_data on one record: timestamp to datetime, derived
date, missing inactivity filled with 0, and the three Yes/No columns
mapped through the Yes/No dict. -/
def processSafetyRow (r : RawSafety) : Except NormError RawSafety :=
  match toInstant r.timestamp with
  | .error e => .error e
  | .ok n =>
    .ok { r with
      timestamp := Cell.time n
      date := Cell.date (n / 86400)
      inactivity := some (r.inactivity.getD 0)
      fallDetected := mapYesNo r.fallDetected
      alertTriggered := mapYesNo r.alertTriggered
      caregiverNotified := mapYesNo r.caregiverNotified }

/-- process_safety_data over a batch. -/
def process_safety_data (df : List RawSafety) : Except NormError (List RawSafety) :=
  mapRowsE processSafetyRow df

/-- process_reminder_data on one record: timestamp to datetime, derived
date, scheduled time parsed to a time-of-day, and the two Yes/No columns
mapped through the Yes/No dict. -/
def processReminderRow (r : RawReminder) : Except NormError RawReminder :=
  match toInstant r.timestamp with
  | .error e => .error e
  | .ok n =>
    match toTimeOfDay r.scheduledTime with
    | .error e => .error e
    | .ok st =>
      .ok { r with
        timestamp := Cell.time n
        date := Cell.date (n / 86400)
        scheduledTime := Cell.timeOfDay st
        sent := mapYesNo r.sent
        ack := mapYesNo r.ack }

/-- process_reminder_data over a batch. -/
def process_reminder_data (df : List RawReminder) : Except NormError (List RawReminder) :=
  mapRowsE processReminderRow df

/-- True exactly on the ok results. -/
def exceptOk : Except NormError α → Bool
  | .ok _ => true
  | .error _ => false

/-! Normalized row types consumed by the alert rule engine
(src/alert_system.py) and by the predictors.  Health threshold flags stay
Yes/No strings in the normalized health frame; safety and reminder flags
are booleans after normalization. -/

/-- Normalized health event as the rule engine reads it. -/
structure HealthRow where
  device : String
  ts : Nat
  heartRate : Nat
  bloodPressure : String
  glucose : Nat
  spo2 : Nat
  hrFlag : String
  bpFlag : String
  gluFlag : String
  spo2Flag : String
  alertTriggered : String
  caregiverNotified : String
deriving DecidableEq, Repr

/-- Normalized safety event as the rule engine and the fall-risk
predictor read it.  hour and dayOfWeek are the columns the fall-risk
preprocessing adds, absent (none) until then. -/
structure SafetyRow where
  device : String
  ts : Nat
  movement : String
  fallDetected : Bool
  impact : String
  inactivity : Nat
  location : String
  alertTriggered : Bool
  caregiverNotified : Bool
  hour : Option Nat
  dayOfWeek : Option Nat
deriving DecidableEq, Repr

/-- Normalized reminder event.  scheduledTime keeps its cell form because
the reminder predictor re-parses it and that re-parse fails on an
already-converted time-of-day.  hour and dayOfWeek are the columns the
effectiveness preprocessing adds. -/
structure ReminderRow where
  device : String
  ts : Nat
  rtype : String
  scheduledTime : Cell
  sent : Bool
  ack : Bool
  hour : Option Nat
  dayOfWeek : Option Nat
deriving DecidableEq, Repr

/-- Alert record built by the rule engine. -/
structure Alert where
  device : String
  atype : String
  timestamp : Nat
  status : String
  message : String
  priority : String
deriving DecidableEq, Repr

/-- The reasons accumulated for a triggered health event, one per
threshold flag that reads Yes, each embedding the offending reading. -/
def healthReasons (r : HealthRow) : List String :=
  (if r.hrFlag == "Yes" then ["Abnormal heart rate: " ++ toString r.heartRate] else []) ++
  (if r.bpFlag == "Yes" then ["Abnormal blood pressure: " ++ r.bloodPressure] else []) ++
  (if r.gluFlag == "Yes" then ["Abnormal glucose level: " ++ toString r.glucose] else []) ++
  (if r.spo2Flag == "Yes" then ["Low oxygen saturation: " ++ toString r.spo2 ++ "%"] else [])

/-- The alert appended for one triggered health event. -/
def mkHealthAlert (r : HealthRow) : Alert :=
  { device := r.device
    atype := "Health"
    timestamp := r.ts
    status := if r.caregiverNotified == "No" then "Active" else "Notified"
    message := String.intercalate "; " (healthReasons r)
    priority := if (healthReasons r).length > 1 then "High" else "Medium" }

/-- generate_health_alerts: one alert per record whose alert-triggered
column reads Yes. -/
def generate_health_alerts (df : List HealthRow) : List Alert :=
  (df.filter (fun r => r.alertTriggered == "Yes")).map mkHealthAlert

/-- The alert appended for one fall event. -/
def mkSafetyAlert (r : SafetyRow) : Alert :=
  { device := r.device
    atype := "Fall"
    timestamp := r.ts
    status := if r.caregiverNotified == false then "Active" else "Notified"
    message := "Fall detected in " ++ r.location ++ " with " ++ r.impact ++
      " impact. " ++ toString r.inactivity ++ " seconds of inactivity."
    priority := if r.impact == "High" || decide (r.inactivity > 300) then "High" else "Medium" }

/-- generate_safety_alerts: one alert per record with fall-detected true. -/
def generate_safety_alerts (df : List SafetyRow) : List Alert :=
  (df.filter (fun r => r.fallDetected == true)).map mkSafetyAlert

/-- The alert appended for one unacknowledged important reminder. -/
def mkReminderAlert (r : ReminderRow) : Alert :=
  { device := r.device
    atype := "Reminder"
    timestamp := r.ts
    status := "Active"
    message := r.rtype ++ " reminder scheduled for " ++ cellText r.scheduledTime ++
      " was not acknowledged."
    priority := if r.rtype == "Medication" then "Medium" else "Low" }

/-- generate_reminder_alerts: records sent but not acknowledged, kept only
for the important reminder types. -/
def generate_reminder_alerts (df : List ReminderRow) : List Alert :=
  ((df.filter (fun r => r.sent && !r.ack)).filter
    (fun r => r.rtype == "Medication" || r.rtype == "Appointment")).map mkReminderAlert

/-- Insertion step of the stable descending sort by timestamp: the new
element goes before the first element whose timestamp is not larger, so
elements inserted earlier stay in front on ties. -/
def insertDesc (x : Alert) : List Alert → List Alert
  | [] => [x]
  | y :: ys => if y.timestamp ≤ x.timestamp then x :: y :: ys else y :: insertDesc x ys

/-- list.sort with key Timestamp and reverse True: a stable sort, most
recent first, ties kept in original order. -/
def sortAlertsDesc : List Alert → List Alert
  | [] => []
  | x :: xs => insertDesc x (sortAlertsDesc xs)

/-- The concatenation of the three per-domain alert lists, an absent
domain contributing zero alerts; health, then safety, then reminder. -/
def domainAlerts (h : Option (List HealthRow)) (s : Option (List SafetyRow))
    (r : Option (List ReminderRow)) : List Alert :=
  (match h with
   | some df => generate_health_alerts df
   | none => []) ++
  (match s with
   | some df => generate_safety_alerts df
   | none => []) ++
  (match r with
   | some df => generate_reminder_alerts df
   | none => [])

/-- generate_alerts: collect the three domains and sort by timestamp,
most recent first. -/
def generate_alerts (h : Option (List HealthRow)) (s : Option (List SafetyRow))
    (r : Option (List ReminderRow)) : List Alert :=
  sortAlertsDesc (domainAlerts h s r)

/-! Predictors (src/predictive_models.py).  The fitted classifier is
abstracted as a probability function on rows; everything around it —
untrained sentinel branch, derived-column preprocessing, pd.cut
bucketing, exception fallbacks — is embedded from the source. -/

/-- Row of the cross-domain merged table, the feature source of the
health-risk predictor.  risk is the target column its preprocessing adds,
absent (none) before that. -/
structure MergedRow where
  device : String
  ts : Nat
  heartRate : Option Nat
  movement : Option String
  hasAnyAlert : Bool
  risk : Option Bool
deriving DecidableEq, Repr

/-- pd.cut with right-closed bins: the value lands in the first interval
left-bound exclusive, right-bound inclusive; values in no bin (the left
edge of the lowest bin included) get no label (NaN). -/
def pdCut (bins : List ℚ) (labels : List String) (x : ℚ) : Option String :=
  match bins, labels with
  | b0 :: b1 :: bs, l0 :: ls =>
    if b0 < x ∧ x ≤ b1 then some l0 else pdCut (b1 :: bs) ls x
  | _, _ => none

/-- Hour of day of an instant. -/
def hourOfInstant (n : Nat) : Nat := n % 86400 / 3600

/-- Day of week of an instant. -/
def dowOfInstant (n : Nat) : Nat := n / 86400 % 7

/-- Hour extracted by pd.to_datetime with format HH:MM:SS from a
scheduled-time cell: succeeds only on a string of that shape. -/
def schedHourOf (c : Cell) : Option Nat :=
  match c with
  | .str s => (parseHMS s).map (fun v => v / 3600)
  | _ => none

/-- HealthRiskPredictor instance state: the trained flag and the fitted
pipeline, abstracted to its class-1 probability on a row. -/
structure HealthRiskPredictor where
  trained : Bool
  model : Option (MergedRow → ℚ)

/-- A fresh HealthRiskPredictor as built by its constructor. -/
def freshHealthPredictor : HealthRiskPredictor := { trained := false, model := none }

/-- A scored merged row: the input row with the two added columns. -/
structure ScoredMerged where
  row : MergedRow
  score : ℚ
  level : Option String
deriving DecidableEq

/-- The fabricated one-row frame predict_risk returns for an empty input
when untrained (its Timestamp.now is modeled as an arbitrary instant). -/
def defaultMergedRow : MergedRow :=
  { device := "USER001", ts := 0, heartRate := some 70, movement := none,
    hasAnyAlert := false, risk := none }

/-- predict_risk: untrained instances return the sentinel score 0 and
level Low on a copy of the input (or on the fabricated row when the input
is empty); trained instances score every row with the model probability
and bucket it with pd.cut over bins 0, 0.3, 0.7, 1. -/
def predict_risk (p : HealthRiskPredictor) (newData : List MergedRow) : List ScoredMerged :=
  match p.trained, p.model with
  | true, some f =>
    newData.map (fun r =>
      { row := r, score := f r,
        level := pdCut [0, 3/10, 7/10, 1] ["Low", "Medium", "High"] (f r) })
  | _, _ =>
    if newData.isEmpty then
      [{ row := defaultMergedRow, score := 0, level := some "Low" }]
    else
      newData.map (fun r => { row := r, score := 0, level := some "Low" })

/-- FallRiskPredictor instance state. -/
structure FallRiskPredictor where
  trained : Bool
  model : Option (SafetyRow → ℚ)

/-- A fresh FallRiskPredictor as built by its constructor. -/
def freshFallPredictor : FallRiskPredictor := { trained := false, model := none }

/-- A scored safety row. -/
structure ScoredSafety where
  row : SafetyRow
  score : ℚ
  level : Option String
deriving DecidableEq

/-- The fabricated one-row frame predict_fall_risk returns for an empty
input when untrained. -/
def defaultSafetyRow : SafetyRow :=
  { device := "USER001", ts := 0, movement := "Walking", fallDetected := false,
    impact := "None", inactivity := 0, location := "Living Room",
    alertTriggered := false, caregiverNotified := false, hour := none, dayOfWeek := none }

/-- predict_fall_risk: untrained instances return the sentinel; trained
instances add the Hour and DayOfWeek columns to their working copy, score
it, and bucket with pd.cut over bins 0, 0.3, 0.6, 1. -/
def predict_fall_risk (p : FallRiskPredictor) (newData : List SafetyRow) : List ScoredSafety :=
  match p.trained, p.model with
  | true, some f =>
    newData.map (fun r =>
      let r2 := { r with hour := some (hourOfInstant r.ts),
                         dayOfWeek := some (dowOfInstant r.ts) }
      { row := r2, score := f r2,
        level := pdCut [0, 3/10, 3/5, 1] ["Low", "Medium", "High"] (f r2) })
  | _, _ =>
    if newData.isEmpty then
      [{ row := defaultSafetyRow, score := 0, level := some "Low" }]
    else
      newData.map (fun r => { row := r, score := 0, level := some "Low" })

/-- ReminderEffectivenessPredictor instance state. -/
structure ReminderEffectivenessPredictor where
  trained : Bool
  model : Option (ReminderRow → ℚ)

/-- A fresh ReminderEffectivenessPredictor as built by its constructor. -/
def freshReminderPredictor : ReminderEffectivenessPredictor :=
  { trained := false, model := none }

/-- A scored reminder row. -/
structure ScoredReminder where
  row : ReminderRow
  score : ℚ
  level : Option String
deriving DecidableEq

/-- The fabricated one-row frame predict_effectiveness returns for an
empty input when untrained. -/
def defaultReminderRow : ReminderRow :=
  { device := "USER001", ts := 0, rtype := "Medication",
    scheduledTime := Cell.timeOfDay 0, sent := true, ack := false,
    hour := none, dayOfWeek := none }

/-- predict_effectiveness: untrained instances return the sentinel;
trained instances re-parse the scheduled time of every row to build the
Hour column (raising on any row whose scheduled time is not an HH:MM:SS
string, which the except branch turns into the sentinel on a copy of the
input), add DayOfWeek, score and bucket with pd.cut over 0, 0.3, 0.7, 1. -/
def predict_effectiveness (p : ReminderEffectivenessPredictor)
    (newData : List ReminderRow) : List ScoredReminder :=
  match p.trained, p.model with
  | true, some f =>
    match mapRowsO (fun r => (schedHourOf r.scheduledTime).map (fun h =>
        { r with hour := some h, dayOfWeek := some (dowOfInstant r.ts) })) newData with
    | some rows =>
      rows.map (fun r =>
        { row := r, score := f r,
          level := pdCut [0, 3/10, 7/10, 1] ["Low", "Medium", "High"] (f r) })
    | none =>
      newData.map (fun r => { row := r, score := 0, level := some "Low" })
  | _, _ =>
    if newData.isEmpty then
      [{ row := defaultReminderRow, score := 0, level := some "Low" }]
    else
      newData.map (fun r => { row := r, score := 0, level := some "Low" })

/-! Caller-visible effect of each train preprocessing step on the input
batch.  HealthRiskPredictor.preprocess_data assigns the Risk column on
the passed frame itself; FallRiskPredictor.preprocess_data assigns Hour
and DayOfWeek on the passed frame before rebinding to the sorted copy;
ReminderEffectivenessPredictor.preprocess_data assigns Hour (raising
before any assignment when some scheduled time is not a parsable string)
and then DayOfWeek on the passed frame before rebinding to the
concatenated copy. -/

/-- Effect of HealthRiskPredictor.preprocess_data on the input frame. -/
def healthPreprocessEffect (df : List MergedRow) : List MergedRow :=
  df.map (fun r => { r with risk := some r.hasAnyAlert })

/-- Effect of FallRiskPredictor.preprocess_data on the input frame (an
empty frame returns before any assignment). -/
def fallPreprocessEffect (df : List SafetyRow) : List SafetyRow :=
  if df.isEmpty then df
  else df.map (fun r => { r with hour := some (hourOfInstant r.ts),
                                 dayOfWeek := some (dowOfInstant r.ts) })

/-- Effect of ReminderEffectivenessPredictor.preprocess_data on the input
frame: the Hour column is computed for the whole batch before being
assigned, so a parse failure leaves the frame untouched. -/
def reminderPreprocessEffect (df : List ReminderRow) : List ReminderRow :=
  if df.isEmpty then df
  else
    match mapRowsO (fun r => (schedHourOf r.scheduledTime).map (fun h =>
        { r with hour := some h })) df with
    | none => df
    | some df1 => df1.map (fun r => { r with dayOfWeek := some (dowOfInstant r.ts) })

/-- Next_Day_Fall target label of FallRiskPredictor.preprocess_data for
one anchor row: among the events of the same device, is there one whose
timestamp lies strictly after the anchor and at most 24 hours later, with
a detected fall. -/
def nextDayFall (events : List SafetyRow) (row : SafetyRow) : Bool :=
  (((events.filter (fun e => e.device == row.device)).filter
      (fun e => decide (row.ts < e.ts) && decide (e.ts ≤ row.ts + 86400))).any
    (fun e => e.fallDetected))

/-! Spec-side measures and defaults used in the statements. -/

/-- Number of the four threshold flags of a health event that read Yes. -/
def healthFlagCount (r : HealthRow) : Nat :=
  (if r.hrFlag = "Yes" then 1 else 0) + (if r.bpFlag = "Yes" then 1 else 0) +
  (if r.gluFlag = "Yes" then 1 else 0) + (if r.spo2Flag = "Yes" then 1 else 0)

/-- The combined condition under which a reminder event yields an alert. -/
def eligibleReminder (r : ReminderRow) : Bool :=
  (r.sent && !r.ack) && (r.rtype == "Medication" || r.rtype == "Appointment")

/-- Default alert used as the out-of-range value of getD. -/
def dAlert : Alert :=
  { device := "", atype := "", timestamp := 0, status := "", message := "", priority := "" }

/-- Default health row used as the out-of-range value of getD. -/
def dHealth : HealthRow :=
  { device := "", ts := 0, heartRate := 0, bloodPressure := "", glucose := 0, spo2 := 0,
    hrFlag := "", bpFlag := "", gluFlag := "", spo2Flag := "",
    alertTriggered := "", caregiverNotified := "" }

/-- Default safety row used as the out-of-range value of getD. -/
def dSafety : SafetyRow :=
  { device := "", ts := 0, movement := "", fallDetected := false, impact := "",
    inactivity := 0, location := "", alertTriggered := false,
    caregiverNotified := false, hour := none, dayOfWeek := none }

/-- Default reminder row used as the out-of-range value of getD. -/
def dReminder : ReminderRow :=
  { device := "", ts := 0, rtype := "", scheduledTime := Cell.na, sent := false,
    ack := false, hour := none, dayOfWeek := none }

/-- Default merged row used as the out-of-range value of getD. -/
def dMerged : MergedRow :=
  { device := "", ts := 0, heartRate := none, movement := none,
    hasAnyAlert := false, risk := none }

/-- Default raw health row used as the out-of-range value of getD. -/
def dRawHealth : RawHealth :=
  { device := "", timestamp := Cell.na, date := Cell.na, heartRate := 0,
    bloodPressure := "", glucose := 0, spo2 := 0, systolic := Cell.na,
    diastolic := Cell.na, spo2Short := Cell.na, hrFlag := "", alertTriggered := "" }

/-! Helper lemmas. -/

theorem getD_map_of_lt (f : α → β) (l : List α) (i : Nat) (d : α) (d2 : β)
    (h : i < l.length) : (l.map f).getD i d2 = f (l.getD i d) := by
  induction l generalizing i with
  | nil => simp at h
  | cons x xs ih =>
    cases i with
    | zero => simp
    | succ n =>
      simp only [List.map_cons, List.getD_cons_succ]
      exact ih n (by simpa using Nat.lt_of_succ_lt_succ h)

theorem healthReasons_length (r : HealthRow) :
    (healthReasons r).length = healthFlagCount r := by
  simp only [healthReasons, healthFlagCount, List.length_append, beq_iff_eq]
  split_ifs <;> simp

/-- C1: for every health event whose alert-triggered flag reads Yes,
generate_health_alerts emits exactly one alert (the i-th triggered event
yields the i-th alert and the counts agree), and that alert has priority
Medium when exactly one of the four threshold flags reads Yes and High
when two or more do. -/
theorem healthAlertPriorityCount (df : List HealthRow) (i : Nat)
    (hi : i < (df.filter (fun r => r.alertTriggered == "Yes")).length) :
    (generate_health_alerts df).length =
      (df.filter (fun r => r.alertTriggered == "Yes")).length ∧
    ((generate_health_alerts df).getD i dAlert).device =
      ((df.filter (fun r => r.alertTriggered == "Yes")).getD i dHealth).device ∧
    ((generate_health_alerts df).getD i dAlert).timestamp =
      ((df.filter (fun r => r.alertTriggered == "Yes")).getD i dHealth).ts ∧
    (healthFlagCount ((df.filter (fun r => r.alertTriggered == "Yes")).getD i dHealth) = 1 →
      ((generate_health_alerts df).getD i dAlert).priority = "Medium") ∧
    (2 ≤ healthFlagCount ((df.filter (fun r => r.alertTriggered == "Yes")).getD i dHealth) →
      ((generate_health_alerts df).getD i dAlert).priority = "High") := by
  have hmap : generate_health_alerts df =
      (df.filter (fun r => r.alertTriggered == "Yes")).map mkHealthAlert := rfl
  rw [hmap, getD_map_of_lt mkHealthAlert _ i dHealth dAlert hi]
  set r := (df.filter (fun r => r.alertTriggered == "Yes")).getD i dHealth with hr
  refine ⟨by simp, rfl, rfl, ?_, ?_⟩
  · intro hc
    simp [mkHealthAlert, healthReasons_length, hc]
  · intro hc
    have : (healthReasons r).length > 1 := by rw [healthReasons_length]; omega
    simp [mkHealthAlert, this]

/-- Concrete instances of healthAlertPriorityCount: a one-flag triggered
event gets a Medium alert, a two-flag triggered event gets a High one. -/
theorem healthAlertPriorityCountWitness :
    ((generate_health_alerts [{ dHealth with alertTriggered := "Yes", hrFlag := "Yes" }]).getD 0 dAlert).priority = "Medium" ∧
    ((generate_health_alerts [{ dHealth with alertTriggered := "Yes", hrFlag := "Yes", spo2Flag := "Yes" }]).getD 0 dAlert).priority = "High" := by
  constructor
  · exact (healthAlertPriorityCount
      [{ dHealth with alertTriggered := "Yes", hrFlag := "Yes" }] 0 (by decide)).2.2.2.1 (by decide)
  · exact (healthAlertPriorityCount
      [{ dHealth with alertTriggered := "Yes", hrFlag := "Yes", spo2Flag := "Yes" }] 0 (by decide)).2.2.2.2 (by decide)

/-- C2: for every safety event with a detected fall, generate_safety_alerts
emits exactly one alert (counts agree, the i-th fall yields the i-th
alert); its priority is High exactly when the impact force level is High
or the post-fall inactivity exceeds 300 seconds, Medium otherwise, and
its message is the fall sentence embedding the location, the impact level
and the inactivity seconds verbatim. -/
theorem safetyAlertPriorityMessage (df : List SafetyRow) (i : Nat)
    (hi : i < (df.filter (fun r => r.fallDetected == true)).length) :
    (generate_safety_alerts df).length =
      (df.filter (fun r => r.fallDetected == true)).length ∧
    ((generate_safety_alerts df).getD i dAlert).device =
      ((df.filter (fun r => r.fallDetected == true)).getD i dSafety).device ∧
    ((generate_safety_alerts df).getD i dAlert).timestamp =
      ((df.filter (fun r => r.fallDetected == true)).getD i dSafety).ts ∧
    (((generate_safety_alerts df).getD i dAlert).priority = "High" ↔
      (((df.filter (fun r => r.fallDetected == true)).getD i dSafety).impact = "High" ∨
       300 < ((df.filter (fun r => r.fallDetected == true)).getD i dSafety).inactivity)) ∧
    (((generate_safety_alerts df).getD i dAlert).priority = "Medium" ↔
      ¬ (((df.filter (fun r => r.fallDetected == true)).getD i dSafety).impact = "High" ∨
         300 < ((df.filter (fun r => r.fallDetected == true)).getD i dSafety).inactivity)) ∧
    ((generate_safety_alerts df).getD i dAlert).message =
      "Fall detected in " ++ ((df.filter (fun r => r.fallDetected == true)).getD i dSafety).location ++
      " with " ++ ((df.filter (fun r => r.fallDetected == true)).getD i dSafety).impact ++
      " impact. " ++ toString ((df.filter (fun r => r.fallDetected == true)).getD i dSafety).inactivity ++
      " seconds of inactivity." := by
  have hmap : generate_safety_alerts df =
      (df.filter (fun r => r.fallDetected == true)).map mkSafetyAlert := rfl
  rw [hmap, getD_map_of_lt mkSafetyAlert _ i dSafety dAlert hi]
  set r := (df.filter (fun r => r.fallDetected == true)).getD i dSafety with hr
  refine ⟨by simp, rfl, rfl, ?_, ?_, rfl⟩
  · by_cases hc : r.impact = "High" ∨ 300 < r.inactivity
    · simp [mkSafetyAlert, hc]
    · push_neg at hc
      have h1 : (r.impact == "High") = false := by
        simp [hc.1]
      have h2 : decide (r.inactivity > 300) = false := by
        simp; omega
      simp [mkSafetyAlert, h1, h2]
      exact ⟨hc.1, by omega⟩
  · by_cases hc : r.impact = "High" ∨ 300 < r.inactivity
    · have h1 : (r.impact == "High" || decide (r.inactivity > 300)) = true := by
        rcases hc with hc | hc <;> simp [hc]
      simp [mkSafetyAlert, h1, hc]
    · push_neg at hc
      have h1 : (r.impact == "High") = false := by simp [hc.1]
      have h2 : decide (r.inactivity > 300) = false := by simp; omega
      simp [mkSafetyAlert, h1, h2]
      exact ⟨hc.1, by omega⟩

/-- The safety event of the spec scenario: a low-impact fall in the
bathroom with 45 seconds of inactivity, caregiver already notified. -/
def wSafetyFall : SafetyRow :=
  { dSafety with device := "U2", fallDetected := true, location := "Bathroom",
                 impact := "Low", inactivity := 45, caregiverNotified := true }

/-- Concrete instance of safetyAlertPriorityMessage: a low-impact fall
with 45 seconds of inactivity gets a Medium alert carrying the scenario
message. -/
theorem safetyAlertPriorityMessageWitness :
    ((generate_safety_alerts [wSafetyFall]).getD 0 dAlert).priority = "Medium" ∧
    ((generate_safety_alerts [wSafetyFall]).getD 0 dAlert).message =
      "Fall detected in Bathroom with Low impact. 45 seconds of inactivity." := by
  have h := safetyAlertPriorityMessage [wSafetyFall] 0 (by decide)
  refine ⟨h.2.2.2.2.1.mpr (by decide), ?_⟩
  rw [h.2.2.2.2.2]
  decide

theorem generate_reminder_alerts_eq (df : List ReminderRow) :
    generate_reminder_alerts df = (df.filter eligibleReminder).map mkReminderAlert := by
  unfold generate_reminder_alerts eligibleReminder
  congr 1
  induction df with
  | nil => rfl
  | cons r rs ih =>
    by_cases h1 : (r.sent && !r.ack) = true
    · by_cases h2 : (r.rtype == "Medication" || r.rtype == "Appointment") = true
      · simp [List.filter_cons, h1, h2, ih]
      · simp [List.filter_cons, h1, h2, ih]
    · simp [List.filter_cons, h1, ih]

/-- C3: generate_reminder_alerts produces an alert exactly for the events
that were sent, not acknowledged, and of type Medication or Appointment
(counts agree and the i-th eligible event yields the i-th alert); other
types such as Exercise and Hydration never yield one; the alert has
priority Medium for Medication and Low for Appointment, and its status is
always Active. -/
theorem reminderAlertFilterPriority (df : List ReminderRow) (i : Nat)
    (hi : i < (df.filter eligibleReminder).length) :
    (generate_reminder_alerts df).length = (df.filter eligibleReminder).length ∧
    ((generate_reminder_alerts df).getD i dAlert).device =
      ((df.filter eligibleReminder).getD i dReminder).device ∧
    ((generate_reminder_alerts df).getD i dAlert).timestamp =
      ((df.filter eligibleReminder).getD i dReminder).ts ∧
    ((generate_reminder_alerts df).getD i dAlert).status = "Active" ∧
    (((df.filter eligibleReminder).getD i dReminder).rtype = "Medication" →
      ((generate_reminder_alerts df).getD i dAlert).priority = "Medium") ∧
    (((df.filter eligibleReminder).getD i dReminder).rtype = "Appointment" →
      ((generate_reminder_alerts df).getD i dAlert).priority = "Low") := by
  rw [generate_reminder_alerts_eq, getD_map_of_lt mkReminderAlert _ i dReminder dAlert hi]
  set r := (df.filter eligibleReminder).getD i dReminder with hr
  refine ⟨by simp [generate_reminder_alerts_eq], rfl, rfl, rfl, ?_, ?_⟩
  · intro hc
    simp [mkReminderAlert, hc]
  · intro hc
    simp [mkReminderAlert, hc]

/-- The unacknowledged reminder events used to instantiate the reminder
alert theorem: one Medication, one Appointment, one Hydration. -/
def wReminderBatch : List ReminderRow :=
  [{ dReminder with device := "U3", rtype := "Medication", sent := true, ack := false },
   { dReminder with device := "U3", rtype := "Appointment", sent := true, ack := false },
   { dReminder with device := "U3", rtype := "Hydration", sent := true, ack := false }]

/-- Concrete instance of reminderAlertFilterPriority: of the three unsent
unacknowledged reminders only Medication and Appointment yield alerts,
with priorities Medium and Low and status Active. -/
theorem reminderAlertFilterPriorityWitness :
    (generate_reminder_alerts wReminderBatch).length = 2 ∧
    ((generate_reminder_alerts wReminderBatch).getD 0 dAlert).priority = "Medium" ∧
    ((generate_reminder_alerts wReminderBatch).getD 1 dAlert).priority = "Low" ∧
    ((generate_reminder_alerts wReminderBatch).getD 0 dAlert).status = "Active" := by
  have h0 := reminderAlertFilterPriority wReminderBatch 0 (by decide)
  have h1 := reminderAlertFilterPriority wReminderBatch 1 (by decide)
  exact ⟨by decide, h0.2.2.2.2.1 (by decide), h1.2.2.2.2.2 (by decide), h0.2.2.2.1⟩

theorem mem_insertDesc {x y : Alert} {l : List Alert} :
    y ∈ insertDesc x l ↔ y = x ∨ y ∈ l := by
  induction l with
  | nil => simp [insertDesc]
  | cons z zs ih =>
    by_cases h : z.timestamp ≤ x.timestamp
    · simp [insertDesc, h]
    · simp [insertDesc, h, ih]
      tauto

theorem pairwise_insertDesc {x : Alert} {l : List Alert}
    (h : l.Pairwise (fun a b => b.timestamp ≤ a.timestamp)) :
    (insertDesc x l).Pairwise (fun a b => b.timestamp ≤ a.timestamp) := by
  induction l with
  | nil => simp [insertDesc]
  | cons y ys ih =>
    rcases List.pairwise_cons.mp h with ⟨hy, hys⟩
    by_cases hcmp : y.timestamp ≤ x.timestamp
    · have hall : (x :: y :: ys).Pairwise (fun a b => b.timestamp ≤ a.timestamp) := by
        refine List.pairwise_cons.mpr ⟨?_, h⟩
        intro z hz
        rcases List.mem_cons.mp hz with hz | hz
        · exact hz ▸ hcmp
        · exact le_trans (hy z hz) hcmp
      simpa [insertDesc, hcmp] using hall
    · have hxy : x.timestamp ≤ y.timestamp := le_of_not_le hcmp
      have : (y :: insertDesc x ys).Pairwise (fun a b => b.timestamp ≤ a.timestamp) := by
        refine List.pairwise_cons.mpr ⟨?_, ih hys⟩
        intro z hz
        rcases mem_insertDesc.mp hz with hz | hz
        · exact hz ▸ hxy
        · exact hy z hz
      simpa [insertDesc, hcmp] using this

theorem pairwise_sortAlertsDesc (l : List Alert) :
    (sortAlertsDesc l).Pairwise (fun a b => b.timestamp ≤ a.timestamp) := by
  induction l with
  | nil => simp [sortAlertsDesc]
  | cons x xs ih => simpa [sortAlertsDesc] using pairwise_insertDesc ih

theorem filter_insertDesc (x : Alert) (l : List Alert) (t : Nat) :
    (insertDesc x l).filter (fun a => a.timestamp == t) =
    (x :: l).filter (fun a => a.timestamp == t) := by
  induction l with
  | nil => rfl
  | cons y ys ih =>
    by_cases hcmp : y.timestamp ≤ x.timestamp
    · simp [insertDesc, hcmp]
    · have hlt : x.timestamp < y.timestamp := lt_of_not_le hcmp
      by_cases hyt : (y.timestamp == t) = true
      · have hxt : (x.timestamp == t) = false := by
          simp at hyt ⊢
          omega
        simp only [insertDesc, if_neg hcmp, List.filter_cons, hyt, hxt, ih]
        simp [List.filter_cons, hyt, hxt]
      · simp only [insertDesc, if_neg hcmp, List.filter_cons]
        simp only [hyt, ih]
        simp [List.filter_cons, hyt]

theorem filter_sortAlertsDesc (l : List Alert) (t : Nat) :
    (sortAlertsDesc l).filter (fun a => a.timestamp == t) =
    l.filter (fun a => a.timestamp == t) := by
  induction l with
  | nil => rfl
  | cons x xs ih =>
    rw [show sortAlertsDesc (x :: xs) = insertDesc x (sortAlertsDesc xs) from rfl,
        filter_insertDesc]
    simp only [List.filter_cons, ih]

/-- C4: for every combination of optional health, safety and reminder
inputs, the output of generate_alerts is descending by timestamp on every
adjacent pair, and alerts with equal timestamps keep the relative order
they had in the concatenation of the three per-domain alert lists. -/
theorem alertsSortedDescStable (h : Option (List HealthRow))
    (s : Option (List SafetyRow)) (r : Option (List ReminderRow)) :
    List.Chain' (fun a b => b.timestamp ≤ a.timestamp) (generate_alerts h s r) ∧
    ∀ t, (generate_alerts h s r).filter (fun a => a.timestamp == t) =
      (domainAlerts h s r).filter (fun a => a.timestamp == t) := by
  constructor
  · exact (pairwise_sortAlertsDesc (domainAlerts h s r)).chain'
  · intro t
    exact filter_sortAlertsDesc (domainAlerts h s r) t

/-- C5: the Next_Day_Fall label looks forward per device with the anchor
timestamp as an exclusive lower bound and anchor plus 24 hours as an
inclusive upper bound: with three chronological events of one device at
t0 (no fall), t0 plus 2 hours (fall) and t0 plus 30 hours (no fall), the
label at t0 is true and the label at t0 plus 2 hours is false. -/
theorem nextDayFallWindowScenario (r0 r1 r2 : SafetyRow) (t0 : Nat)
    (hd1 : r1.device = r0.device) (hd2 : r2.device = r0.device)
    (h0 : r0.ts = t0) (h1 : r1.ts = t0 + 7200) (h2 : r2.ts = t0 + 108000)
    (hf1 : r1.fallDetected = true) (hf2 : r2.fallDetected = false) :
    nextDayFall [r0, r1, r2] r0 = true ∧ nextDayFall [r0, r1, r2] r1 = false := by
  constructor
  · simp [nextDayFall, hd1, hd2, List.filter_cons, List.any_eq_true]
    refine ⟨r1, ?_, hf1⟩
    simp [h0, h1]
  · have c0 : ¬ (r1.ts < r0.ts) := by rw [h0, h1]; omega
    have c1 : ¬ (r1.ts < r1.ts) := by omega
    have c2 : ¬ (r2.ts ≤ r1.ts + 86400) := by rw [h1, h2]; omega
    simp [nextDayFall, hd1, hd2, List.filter_cons, c0, c1, c2]

/-- The three events of the fall-label scenario at t0 equal to zero. -/
def wFall0 : SafetyRow := { dSafety with device := "D1", ts := 0 }

/-- Second scenario event: a fall two hours after the anchor. -/
def wFall1 : SafetyRow :=
  { dSafety with device := "D1", ts := 7200, fallDetected := true }

/-- Third scenario event: thirty hours after the anchor, no fall. -/
def wFall2 : SafetyRow := { dSafety with device := "D1", ts := 108000 }

/-- Concrete instance of nextDayFallWindowScenario at t0 equal to zero. -/
theorem nextDayFallWindowScenarioWitness :
    nextDayFall [wFall0, wFall1, wFall2] wFall0 = true ∧
    nextDayFall [wFall0, wFall1, wFall2] wFall1 = false :=
  nextDayFallWindowScenario wFall0 wFall1 wFall2 0 (by decide) (by decide)
    (by decide) (by decide) (by decide) (by decide) (by decide)

/-- C6: on a fresh, untrained instance, each of the three predict
operations is total (the Lean functions are total, mirroring the
sentinel branch that raises nothing) and returns score 0 and level Low
for every row of its output; for a nonempty input the output rows are
exactly the input rows. -/
theorem untrainedPredictSentinel :
    (∀ (rows : List MergedRow),
      (∀ x ∈ predict_risk freshHealthPredictor rows, x.score = 0 ∧ x.level = some "Low") ∧
      (rows ≠ [] → (predict_risk freshHealthPredictor rows).map ScoredMerged.row = rows)) ∧
    (∀ (rows : List SafetyRow),
      (∀ x ∈ predict_fall_risk freshFallPredictor rows, x.score = 0 ∧ x.level = some "Low") ∧
      (rows ≠ [] → (predict_fall_risk freshFallPredictor rows).map ScoredSafety.row = rows)) ∧
    (∀ (rows : List ReminderRow),
      (∀ x ∈ predict_effectiveness freshReminderPredictor rows, x.score = 0 ∧ x.level = some "Low") ∧
      (rows ≠ [] → (predict_effectiveness freshReminderPredictor rows).map ScoredReminder.row = rows)) := by
  refine ⟨fun rows => ⟨?_, ?_⟩, fun rows => ⟨?_, ?_⟩, fun rows => ⟨?_, ?_⟩⟩
  · intro x hx
    simp only [predict_risk, freshHealthPredictor] at hx
    split at hx
    · simp at hx
      simp [hx]
    · simp at hx
      obtain ⟨r, _, rfl⟩ := hx
      exact ⟨rfl, rfl⟩
  · intro hne
    have he : rows.isEmpty = false := by simpa using hne
    have hstep : predict_risk freshHealthPredictor rows =
        rows.map (fun r => { row := r, score := 0, level := some "Low" }) := by
      simp [predict_risk, freshHealthPredictor, he]
    have hid : (ScoredMerged.row ∘ fun r =>
        ({ row := r, score := 0, level := some "Low" } : ScoredMerged)) = fun r => r := rfl
    rw [hstep, List.map_map, hid, List.map_id']
  · intro x hx
    simp only [predict_fall_risk, freshFallPredictor] at hx
    split at hx
    · simp at hx
      simp [hx]
    · simp at hx
      obtain ⟨r, _, rfl⟩ := hx
      exact ⟨rfl, rfl⟩
  · intro hne
    have he : rows.isEmpty = false := by simpa using hne
    have hstep : predict_fall_risk freshFallPredictor rows =
        rows.map (fun r => { row := r, score := 0, level := some "Low" }) := by
      simp [predict_fall_risk, freshFallPredictor, he]
    have hid : (ScoredSafety.row ∘ fun r =>
        ({ row := r, score := 0, level := some "Low" } : ScoredSafety)) = fun r => r := rfl
    rw [hstep, List.map_map, hid, List.map_id']
  · intro x hx
    simp only [predict_effectiveness, freshReminderPredictor] at hx
    split at hx
    · simp at hx
      simp [hx]
    · simp at hx
      obtain ⟨r, _, rfl⟩ := hx
      exact ⟨rfl, rfl⟩
  · intro hne
    have he : rows.isEmpty = false := by simpa using hne
    have hstep : predict_effectiveness freshReminderPredictor rows =
        rows.map (fun r => { row := r, score := 0, level := some "Low" }) := by
      simp [predict_effectiveness, freshReminderPredictor, he]
    have hid : (ScoredReminder.row ∘ fun r =>
        ({ row := r, score := 0, level := some "Low" } : ScoredReminder)) = fun r => r := rfl
    rw [hstep, List.map_map, hid, List.map_id']

/-- Concrete instances of untrainedPredictSentinel: each fresh predictor
maps a one-row input to itself with sentinel score and level. -/
theorem untrainedPredictSentinelWitness :
    ((ScoredMerged.mk defaultMergedRow 0 (some "Low")).score = 0 ∧
      (ScoredMerged.mk defaultMergedRow 0 (some "Low")).level = some "Low") ∧
    (predict_risk freshHealthPredictor [defaultMergedRow]).map ScoredMerged.row = [defaultMergedRow] ∧
    (predict_fall_risk freshFallPredictor [dSafety]).map ScoredSafety.row = [dSafety] ∧
    (predict_effectiveness freshReminderPredictor [dReminder]).map ScoredReminder.row = [dReminder] := by
  have h := untrainedPredictSentinel
  exact ⟨(h.1 [defaultMergedRow]).1 (ScoredMerged.mk defaultMergedRow 0 (some "Low")) (by decide),
    (h.1 [defaultMergedRow]).2 (by decide),
    (h.2.1 [dSafety]).2 (by decide),
    (h.2.2 [dReminder]).2 (by decide)⟩

/-- Bucketing as the spec words it: score at most 0.3 is Low, scores up
to the upper boundary are Medium, larger scores are High. -/
def specBucket (hi x : ℚ) : String :=
  if x ≤ 3/10 then "Low" else if x ≤ hi then "Medium" else "High"

/-- Bucketing as pd.cut actually produces it: Low on scores in the left
open interval from 0 to 0.3, Medium up to the upper boundary, High up to
1, and no level at all (NaN) for a score of exactly 0 or outside the
bins. -/
def amendedBucket (hi x : ℚ) : Option String :=
  if 0 < x ∧ x ≤ 3/10 then some "Low"
  else if 3/10 < x ∧ x ≤ hi then some "Medium"
  else if hi < x ∧ x ≤ 1 then some "High"
  else none

theorem pdCut_three (hi x : ℚ) :
    pdCut [0, 3/10, hi, 1] ["Low", "Medium", "High"] x = amendedBucket hi x := rfl

/-- The constant-zero probability model, a probability a forest whose
trees all vote the negative class does produce. -/
def zeroModelM : MergedRow → ℚ := fun _ => 0

/-- C7 fails as stated: a trained health-risk predictor whose model gives
a row probability exactly 0 yields no level at all (pd.cut leaves the
left edge of the lowest bin out), while the stated bucketing demands Low
for every score at most 0.3. -/
theorem riskBucketZeroScoreCex :
    (predict_risk { trained := true, model := some zeroModelM }
      [defaultMergedRow]).map ScoredMerged.level = [none] ∧
    specBucket (7/10) 0 = "Low" := by
  constructor
  · norm_num [predict_risk, zeroModelM, pdCut_three, amendedBucket]
  · norm_num [specBucket]

theorem mapRowsO_isSome {f : α → Option β} {l : List α}
    (h : ∀ x ∈ l, (f x).isSome) : ∃ l2, mapRowsO f l = some l2 := by
  induction l with
  | nil => exact ⟨[], rfl⟩
  | cons x xs ih =>
    obtain ⟨y, hy⟩ := Option.isSome_iff_exists.mp (h x (List.mem_cons_self x xs))
    obtain ⟨ys, hys⟩ := ih (fun z hz => h z (List.mem_cons_of_mem x hz))
    exact ⟨y :: ys, by simp [mapRowsO, hy, hys]⟩

/-- C7 amended: on the success path of a trained predictor, every scored
row carries the level pd.cut assigns to its score — Low on the left-open
interval up to 0.3, Medium up to 0.7 (0.6 for the fall predictor), High
up to 1, and no level for a score of exactly 0; for the reminder
predictor the success path asks every scheduled time to be a parsable
string, since otherwise the except branch degrades all rows to the
sentinel. -/
theorem riskBucketAmended :
    (∀ (f : MergedRow → ℚ) (rows : List MergedRow),
      (predict_risk { trained := true, model := some f } rows).map ScoredMerged.level =
      (predict_risk { trained := true, model := some f } rows).map
        (fun x => amendedBucket (7/10) x.score)) ∧
    (∀ (g : SafetyRow → ℚ) (rows : List SafetyRow),
      (predict_fall_risk { trained := true, model := some g } rows).map ScoredSafety.level =
      (predict_fall_risk { trained := true, model := some g } rows).map
        (fun x => amendedBucket (3/5) x.score)) ∧
    (∀ (k : ReminderRow → ℚ) (rows : List ReminderRow),
      (∀ r ∈ rows, (schedHourOf r.scheduledTime).isSome) →
      (predict_effectiveness { trained := true, model := some k } rows).map ScoredReminder.level =
      (predict_effectiveness { trained := true, model := some k } rows).map
        (fun x => amendedBucket (7/10) x.score)) := by
  refine ⟨?_, ?_, ?_⟩
  · intro f rows
    simp [predict_risk, List.map_map, Function.comp, pdCut_three]
  · intro g rows
    simp [predict_fall_risk, List.map_map, Function.comp, pdCut_three]
  · intro k rows hall
    obtain ⟨rows2, hrows2⟩ := mapRowsO_isSome (f := fun r =>
      (schedHourOf r.scheduledTime).map (fun h =>
        { r with hour := some h, dayOfWeek := some (dowOfInstant r.ts) }))
      (l := rows) (fun r hr => by simpa using hall r hr)
    simp [predict_effectiveness, hrows2, List.map_map, Function.comp, pdCut_three]

/-- The constant one-half probability model for reminder rows. -/
def halfModelR : ReminderRow → ℚ := fun _ => 1/2

/-- A reminder row whose scheduled time is still an HH:MM:SS string. -/
def wReminderStr : ReminderRow := { dReminder with scheduledTime := Cell.str "08:00:00" }

/-- Concrete instance of riskBucketAmended: a trained reminder predictor
scoring one parsable row one half labels it Medium. -/
theorem riskBucketAmendedWitness :
    (predict_effectiveness { trained := true, model := some halfModelR }
      [wReminderStr]).map ScoredReminder.level = [some "Medium"] := by
  have h := riskBucketAmended.2.2 halfModelR [wReminderStr] (by decide)
  rw [h]
  have hs : schedHourOf wReminderStr.scheduledTime = some 8 := by decide
  norm_num [predict_effectiveness, mapRowsO, hs, halfModelR, amendedBucket]

theorem mapYesNo_mapYesNo (c : Cell) : mapYesNo (mapYesNo c) = Cell.na := by
  by_cases h1 : c = .str "Yes"
  · simp [mapYesNo, h1]
  · by_cases h2 : c = .str "No" <;> simp [mapYesNo, h1, h2]

theorem processHealthRow_idem {r r2 : RawHealth} (h : processHealthRow r = .ok r2) :
    processHealthRow r2 = .ok r2 := by
  unfold processHealthRow at h ⊢
  cases hti : toInstant r.timestamp with
  | error e => rw [hti] at h; simp at h
  | ok n =>
    rw [hti] at h
    cases hbp : extractBP r.bloodPressure with
    | none => rw [hbp] at h; simp at h
    | some p =>
      rw [hbp] at h
      simp at h
      subst h
      simp [toInstant, hbp]

theorem mapRowsE_idem {f : α → Except NormError α}
    (hf : ∀ x y, f x = .ok y → f y = .ok y) :
    ∀ l l2, mapRowsE f l = .ok l2 → mapRowsE f l2 = .ok l2 := by
  intro l
  induction l with
  | nil =>
    intro l2 h
    simp [mapRowsE] at h
    subst h
    rfl
  | cons x xs ih =>
    intro l2 h
    simp only [mapRowsE] at h
    cases hfx : f x with
    | error e => rw [hfx] at h; simp at h
    | ok y =>
      rw [hfx] at h
      cases hxs : mapRowsE f xs with
      | error e => rw [hxs] at h; simp at h
      | ok ys =>
        rw [hxs] at h
        simp at h
        subst h
        simp [mapRowsE, hf x y hfx, ih ys hxs]

theorem mapRowsE_second {f : α → Except NormError α} {P : α → Prop}
    (hf : ∀ x y, f x = .ok y → ∃ z, f y = .ok z ∧ P z) :
    ∀ l l2, mapRowsE f l = .ok l2 →
      ∃ l3, mapRowsE f l2 = .ok l3 ∧ ∀ z ∈ l3, P z := by
  intro l
  induction l with
  | nil =>
    intro l2 h
    simp [mapRowsE] at h
    subst h
    exact ⟨[], rfl, by simp⟩
  | cons x xs ih =>
    intro l2 h
    simp only [mapRowsE] at h
    cases hfx : f x with
    | error e => rw [hfx] at h; simp at h
    | ok y =>
      rw [hfx] at h
      cases hxs : mapRowsE f xs with
      | error e => rw [hxs] at h; simp at h
      | ok ys =>
        rw [hxs] at h
        simp at h
        subst h
        obtain ⟨z, hz, hPz⟩ := hf x y hfx
        obtain ⟨l3, hl3, hP3⟩ := ih ys hxs
        refine ⟨z :: l3, by simp [mapRowsE, hz, hl3], ?_⟩
        intro w hw
        rcases List.mem_cons.mp hw with hw | hw
        · exact hw ▸ hPz
        · exact hP3 w hw

theorem mapRowsE_fail_second {f : α → Except NormError α}
    (hf : ∀ x y, f x = .ok y → ∃ e, f y = .error e) :
    ∀ l l2, mapRowsE f l = .ok l2 → l ≠ [] → ∃ e, mapRowsE f l2 = .error e := by
  intro l l2 h hne
  cases l with
  | nil => exact absurd rfl hne
  | cons x xs =>
    simp only [mapRowsE] at h
    cases hfx : f x with
    | error e => rw [hfx] at h; simp at h
    | ok y =>
      rw [hfx] at h
      cases hxs : mapRowsE f xs with
      | error e => rw [hxs] at h; simp at h
      | ok ys =>
        rw [hxs] at h
        simp at h
        subst h
        obtain ⟨e, he⟩ := hf x y hfx
        exact ⟨e, by simp [mapRowsE, he]⟩

theorem processSafetyRow_second {r r2 : RawSafety} (h : processSafetyRow r = .ok r2) :
    processSafetyRow r2 = .ok { r2 with
      fallDetected := Cell.na, alertTriggered := Cell.na, caregiverNotified := Cell.na } := by
  unfold processSafetyRow at h ⊢
  cases hti : toInstant r.timestamp with
  | error e => rw [hti] at h; simp at h
  | ok n =>
    rw [hti] at h
    simp at h
    subst h
    simp [toInstant, mapYesNo_mapYesNo]

theorem processReminderRow_second {r r2 : RawReminder} (h : processReminderRow r = .ok r2) :
    ∃ e, processReminderRow r2 = .error e := by
  unfold processReminderRow at h ⊢
  cases hti : toInstant r.timestamp with
  | error e => rw [hti] at h; simp at h
  | ok n =>
    rw [hti] at h
    cases hst : toTimeOfDay r.scheduledTime with
    | error e => rw [hst] at h; simp at h
    | ok st =>
      rw [hst] at h
      simp at h
      subst h
      exact ⟨.malformedField "scheduled time not convertible to datetime",
        by simp [toInstant, toTimeOfDay]⟩

/-- C8 amended: re-normalizing an already-normalized health batch is a
no-op; re-normalizing a safety batch succeeds but replaces every Yes/No
flag column by missing values, because the dict map recognizes neither
True nor False; re-normalizing a nonempty reminder batch fails, because
the already-converted scheduled time no longer parses. -/
theorem renormalizeAmended :
    (∀ df out, process_health_data df = .ok out → process_health_data out = .ok out) ∧
    (∀ df out, process_safety_data df = .ok out →
      ∃ out2, process_safety_data out = .ok out2 ∧
        ∀ r ∈ out2, r.fallDetected = Cell.na ∧ r.alertTriggered = Cell.na ∧
          r.caregiverNotified = Cell.na) ∧
    (∀ df out, process_reminder_data df = .ok out → df ≠ [] →
      ∃ e, process_reminder_data out = .error e) := by
  refine ⟨?_, ?_, ?_⟩
  · intro df out h
    exact mapRowsE_idem (fun x y hxy => processHealthRow_idem hxy) df out h
  · intro df out h
    exact mapRowsE_second
      (P := fun z => z.fallDetected = Cell.na ∧ z.alertTriggered = Cell.na ∧
        z.caregiverNotified = Cell.na)
      (fun x y hxy => ⟨_, processSafetyRow_second hxy, rfl, rfl, rfl⟩) df out h
  · intro df out h hne
    exact mapRowsE_fail_second (fun x y hxy => processReminderRow_second hxy) df out h hne

/-- A raw safety record with Yes/No string flags, as imported. -/
def rawSafetyYes : RawSafety :=
  { device := "U2", timestamp := Cell.str "100", date := Cell.na, movement := "Walking",
    fallDetected := Cell.str "Yes", impact := "Low", inactivity := none,
    location := "Bathroom", alertTriggered := Cell.str "No",
    caregiverNotified := Cell.str "No" }

/-- The same record after one normalization pass. -/
def normSafetyOnce : RawSafety :=
  { rawSafetyYes with
      timestamp := Cell.time 100
      date := Cell.date 0
      inactivity := some 0
      fallDetected := Cell.bool true
      alertTriggered := Cell.bool false
      caregiverNotified := Cell.bool false }

/-- The same record after a second normalization pass: the boolean flags
have decayed to missing values. -/
def normSafetyTwice : RawSafety :=
  { normSafetyOnce with
      fallDetected := Cell.na
      alertTriggered := Cell.na
      caregiverNotified := Cell.na }

/-- C8 fails as stated: re-normalizing this already-normalized one-row
safety batch succeeds but does not leave the fields unchanged — the
fall-detected flag goes from True to missing. -/
theorem renormalizeSafetyCex :
    process_safety_data [rawSafetyYes] = .ok [normSafetyOnce] ∧
    process_safety_data [normSafetyOnce] = .ok [normSafetyTwice] ∧
    normSafetyTwice ≠ normSafetyOnce := by
  refine ⟨by rfl, by rfl, by decide⟩

/-- A raw health record with a well-formed blood pressure. -/
def wRawHealth : RawHealth :=
  { device := "U1", timestamp := Cell.str "0", date := Cell.na, heartRate := 80,
    bloodPressure := "120/80", glucose := 90, spo2 := 97, systolic := Cell.na,
    diastolic := Cell.na, spo2Short := Cell.na, hrFlag := "No", alertTriggered := "No" }

/-- The same health record after one normalization pass. -/
def wNormHealth : RawHealth :=
  { wRawHealth with
      timestamp := Cell.time 0
      date := Cell.date 0
      systolic := Cell.int 120
      diastolic := Cell.int 80
      spo2Short := Cell.int 97 }

/-- A raw reminder record as imported. -/
def wRawReminder : RawReminder :=
  { device := "U3", timestamp := Cell.str "0", date := Cell.na, rtype := "Medication",
    scheduledTime := Cell.str "08:00:00", sent := Cell.str "Yes", ack := Cell.str "No" }

/-- The same reminder record after one normalization pass. -/
def wNormReminder : RawReminder :=
  { wRawReminder with
      timestamp := Cell.time 0
      date := Cell.date 0
      scheduledTime := Cell.timeOfDay 28800
      sent := Cell.bool true
      ack := Cell.bool false }

/-- Concrete instances of renormalizeAmended: the normalized health batch
is a fixed point, the re-normalized safety batch still succeeds, and the
re-normalized reminder batch fails. -/
theorem renormalizeAmendedWitness :
    process_health_data [wNormHealth] = .ok [wNormHealth] ∧
    exceptOk (process_safety_data [normSafetyOnce]) = true ∧
    exceptOk (process_reminder_data [wNormReminder]) = false := by
  refine ⟨renormalizeAmended.1 [wRawHealth] [wNormHealth] (by rfl), ?_, ?_⟩
  · obtain ⟨out2, h2, _⟩ :=
      renormalizeAmended.2.1 [rawSafetyYes] [normSafetyOnce] (by rfl)
    simp [h2, exceptOk]
  · obtain ⟨e, he⟩ :=
      renormalizeAmended.2.2 [wRawReminder] [wNormReminder] (by rfl) (by decide)
    simp [he, exceptOk]

/-- A raw health record whose blood pressure is not of the SSS/DDD shape
but still contains a digits-slash-digits substring. -/
def wLooseBP : RawHealth := { wRawHealth with bloodPressure := "bp 120/80" }

/-- The normalization result of wLooseBP: the embedded reading is
extracted anyway. -/
def wLooseBPNorm : RawHealth :=
  { wLooseBP with
      timestamp := Cell.time 0
      date := Cell.date 0
      systolic := Cell.int 120
      diastolic := Cell.int 80
      spo2Short := Cell.int 97 }

/-- C9 fails as stated: this blood pressure value does not match the
SSS/DDD shape, yet process_health_data succeeds on it instead of failing,
because the extraction regex is an unanchored search. -/
theorem bloodPressurePatternCex :
    isFullBPPattern "bp 120/80" = false ∧
    process_health_data [wLooseBP] = .ok [wLooseBPNorm] :=
  ⟨by decide, by rfl⟩

theorem processHealthRow_fail {r : RawHealth} (h : extractBP r.bloodPressure = none) :
    ∃ e, processHealthRow r = .error e := by
  unfold processHealthRow
  cases hti : toInstant r.timestamp with
  | error e => exact ⟨e, rfl⟩
  | ok n =>
    refine ⟨.malformedField "cannot convert blood pressure to int", ?_⟩
    simp [h]

theorem mapRowsE_error_of_mem {f : α → Except NormError β} {x : α}
    (hfx : ∃ e, f x = .error e) :
    ∀ l, x ∈ l → ∃ e, mapRowsE f l = .error e := by
  intro l
  induction l with
  | nil => intro hx; simp at hx
  | cons y ys ih =>
    intro hx
    rcases List.mem_cons.mp hx with rfl | hx2
    · obtain ⟨e, he⟩ := hfx
      exact ⟨e, by simp [mapRowsE, he]⟩
    · cases hfy : f y with
      | error e => exact ⟨e, by simp [mapRowsE, hfy]⟩
      | ok z =>
        obtain ⟨e, he⟩ := ih hx2
        exact ⟨e, by simp [mapRowsE, hfy, he]⟩

theorem mapRowsE_getD {f : α → Except NormError β} (d : α) (d2 : β) :
    ∀ l l2, mapRowsE f l = .ok l2 →
      l2.length = l.length ∧
      ∀ i, i < l.length → f (l.getD i d) = .ok (l2.getD i d2) := by
  intro l
  induction l with
  | nil =>
    intro l2 h
    simp [mapRowsE] at h
    subst h
    exact ⟨rfl, by intro i hi; simp at hi⟩
  | cons x xs ih =>
    intro l2 h
    simp only [mapRowsE] at h
    cases hfx : f x with
    | error e => rw [hfx] at h; simp at h
    | ok y =>
      rw [hfx] at h
      cases hxs : mapRowsE f xs with
      | error e => rw [hxs] at h; simp at h
      | ok ys =>
        rw [hxs] at h
        simp at h
        subst h
        obtain ⟨hlen, hpos⟩ := ih ys hxs
        refine ⟨by simp [hlen], ?_⟩
        intro i hi
        cases i with
        | zero => simpa using hfx
        | succ n =>
          simp only [List.getD_cons_succ]
          exact hpos n (by simpa using Nat.lt_of_succ_lt_succ hi)

theorem processHealthRow_fields {r r2 : RawHealth} {a b : Nat}
    (h : processHealthRow r = .ok r2) (hbp : extractBP r.bloodPressure = some (a, b)) :
    r2.systolic = Cell.int a ∧ r2.diastolic = Cell.int b := by
  unfold processHealthRow at h
  cases hti : toInstant r.timestamp with
  | error e => rw [hti] at h; simp at h
  | ok n =>
    rw [hti, hbp] at h
    simp at h
    exact ⟨by rw [← h], by rw [← h]⟩

/-- C9 amended: process_health_data fails with the typed normalizer error
exactly when some blood-pressure value contains no digits-slash-digits
substring (the search the extraction regex performs); when it succeeds,
each record carries as systolic and diastolic the two integer components
of the first such substring of its blood-pressure value. -/
theorem bloodPressureParseAmended :
    (∀ (df : List RawHealth) (r : RawHealth), r ∈ df →
      extractBP r.bloodPressure = none → ∃ e, process_health_data df = .error e) ∧
    (∀ df out i a b, process_health_data df = .ok out → i < df.length →
      extractBP ((df.getD i dRawHealth).bloodPressure) = some (a, b) →
      (out.getD i dRawHealth).systolic = Cell.int a ∧
      (out.getD i dRawHealth).diastolic = Cell.int b) := by
  constructor
  · intro df r hr hnone
    exact mapRowsE_error_of_mem (processHealthRow_fail hnone) df hr
  · intro df out i a b h hi hsome
    obtain ⟨hlen, hpos⟩ := mapRowsE_getD dRawHealth dRawHealth df out h
    exact processHealthRow_fields (hpos i hi) hsome

/-- A raw health record whose blood pressure has no embedded reading. -/
def wBadBP : RawHealth := { wRawHealth with bloodPressure := "oops" }

/-- Concrete instances of bloodPressureParseAmended: a batch with no
extractable blood pressure fails, and the well-formed batch yields the
split integer components. -/
theorem bloodPressureParseAmendedWitness :
    exceptOk (process_health_data [wBadBP]) = false ∧
    (([wNormHealth].getD 0 dRawHealth).systolic = Cell.int 120 ∧
     ([wNormHealth].getD 0 dRawHealth).diastolic = Cell.int 80) := by
  constructor
  · obtain ⟨e, he⟩ :=
      bloodPressureParseAmended.1 [wBadBP] wBadBP (by decide) (by decide)
    simp [he, exceptOk]
  · exact bloodPressureParseAmended.2 [wRawHealth] [wNormHealth] 0 120 80
      (by rfl) (by decide) (by decide)

/-- C10 fails as stated: training the health-risk predictor on this
one-row merged batch does not leave the caller frame unchanged — its
preprocessing assigns the Risk column on the input in place. -/
theorem trainMutatesInputCex :
    healthPreprocessEffect [defaultMergedRow] ≠ [defaultMergedRow] := by
  decide

theorem mapRowsO_getD {f : α → Option β} (d : α) (d2 : β) :
    ∀ l l2, mapRowsO f l = some l2 →
      l2.length = l.length ∧ ∀ i, i < l.length → f (l.getD i d) = some (l2.getD i d2) := by
  intro l
  induction l with
  | nil =>
    intro l2 h
    simp [mapRowsO] at h
    subst h
    exact ⟨rfl, by intro i hi; simp at hi⟩
  | cons x xs ih =>
    intro l2 h
    simp only [mapRowsO] at h
    cases hfx : f x with
    | none => rw [hfx] at h; simp at h
    | some y =>
      rw [hfx] at h
      cases hxs : mapRowsO f xs with
      | none => rw [hxs] at h; simp at h
      | some ys =>
        rw [hxs] at h
        simp at h
        subst h
        obtain ⟨hlen, hpos⟩ := ih ys hxs
        refine ⟨by simp [hlen], ?_⟩
        intro i hi
        cases i with
        | zero => simpa using hfx
        | succ n =>
          simp only [List.getD_cons_succ]
          exact hpos n (by simpa using Nat.lt_of_succ_lt_succ hi)

/-- C10 amended: the train preprocessing of each predictor mutates the
caller frame only by adding derived columns in place — Risk for the
health predictor, Hour and DayOfWeek for the fall predictor, Hour and
then DayOfWeek for the reminder predictor when the scheduled-time parse
succeeds (otherwise the frame is left untouched); every pre-existing
field of every row keeps its value. -/
theorem trainPreprocessFrameAmended :
    (∀ (df : List MergedRow) (i : Nat), i < df.length →
      (healthPreprocessEffect df).length = df.length ∧
      ((healthPreprocessEffect df).getD i dMerged).device = (df.getD i dMerged).device ∧
      ((healthPreprocessEffect df).getD i dMerged).ts = (df.getD i dMerged).ts ∧
      ((healthPreprocessEffect df).getD i dMerged).heartRate = (df.getD i dMerged).heartRate ∧
      ((healthPreprocessEffect df).getD i dMerged).movement = (df.getD i dMerged).movement ∧
      ((healthPreprocessEffect df).getD i dMerged).hasAnyAlert = (df.getD i dMerged).hasAnyAlert ∧
      ((healthPreprocessEffect df).getD i dMerged).risk = some ((df.getD i dMerged).hasAnyAlert)) ∧
    (∀ (df : List SafetyRow) (i : Nat), i < df.length →
      (fallPreprocessEffect df).length = df.length ∧
      ((fallPreprocessEffect df).getD i dSafety).device = (df.getD i dSafety).device ∧
      ((fallPreprocessEffect df).getD i dSafety).ts = (df.getD i dSafety).ts ∧
      ((fallPreprocessEffect df).getD i dSafety).movement = (df.getD i dSafety).movement ∧
      ((fallPreprocessEffect df).getD i dSafety).fallDetected = (df.getD i dSafety).fallDetected ∧
      ((fallPreprocessEffect df).getD i dSafety).impact = (df.getD i dSafety).impact ∧
      ((fallPreprocessEffect df).getD i dSafety).inactivity = (df.getD i dSafety).inactivity ∧
      ((fallPreprocessEffect df).getD i dSafety).location = (df.getD i dSafety).location ∧
      ((fallPreprocessEffect df).getD i dSafety).alertTriggered = (df.getD i dSafety).alertTriggered ∧
      ((fallPreprocessEffect df).getD i dSafety).caregiverNotified = (df.getD i dSafety).caregiverNotified ∧
      ((fallPreprocessEffect df).getD i dSafety).hour = some (hourOfInstant ((df.getD i dSafety).ts)) ∧
      ((fallPreprocessEffect df).getD i dSafety).dayOfWeek = some (dowOfInstant ((df.getD i dSafety).ts))) ∧
    (∀ (df : List ReminderRow) (i : Nat), i < df.length →
      reminderPreprocessEffect df = df ∨
      ((reminderPreprocessEffect df).length = df.length ∧
       ((reminderPreprocessEffect df).getD i dReminder).device = (df.getD i dReminder).device ∧
       ((reminderPreprocessEffect df).getD i dReminder).ts = (df.getD i dReminder).ts ∧
       ((reminderPreprocessEffect df).getD i dReminder).rtype = (df.getD i dReminder).rtype ∧
       ((reminderPreprocessEffect df).getD i dReminder).scheduledTime = (df.getD i dReminder).scheduledTime ∧
       ((reminderPreprocessEffect df).getD i dReminder).sent = (df.getD i dReminder).sent ∧
       ((reminderPreprocessEffect df).getD i dReminder).ack = (df.getD i dReminder).ack ∧
       ((reminderPreprocessEffect df).getD i dReminder).hour.isSome = true ∧
       ((reminderPreprocessEffect df).getD i dReminder).dayOfWeek =
         some (dowOfInstant ((df.getD i dReminder).ts)))) := by
  refine ⟨?_, ?_, ?_⟩
  · intro df i hi
    have hmap : healthPreprocessEffect df =
        df.map (fun r => { r with risk := some r.hasAnyAlert }) := rfl
    rw [hmap, getD_map_of_lt _ _ i dMerged dMerged hi]
    exact ⟨by simp, rfl, rfl, rfl, rfl, rfl, rfl⟩
  · intro df i hi
    have hne : df.isEmpty = false := by
      cases df
      · simp at hi
      · simp
    have hmap : fallPreprocessEffect df =
        df.map (fun r => { r with hour := some (hourOfInstant r.ts),
                                  dayOfWeek := some (dowOfInstant r.ts) }) := by
      simp [fallPreprocessEffect, hne]
    rw [hmap, getD_map_of_lt _ _ i dSafety dSafety hi]
    exact ⟨by simp, rfl, rfl, rfl, rfl, rfl, rfl, rfl, rfl, rfl, rfl, rfl⟩
  · intro df i hi
    have hne : df.isEmpty = false := by
      cases df
      · simp at hi
      · simp
    cases hm : mapRowsO (fun r => (schedHourOf r.scheduledTime).map
        (fun h => { r with hour := some h })) df with
    | none =>
      left
      simp [reminderPreprocessEffect, hne, hm]
    | some df1 =>
      right
      have heq : reminderPreprocessEffect df =
          df1.map (fun r => { r with dayOfWeek := some (dowOfInstant r.ts) }) := by
        simp [reminderPreprocessEffect, hne, hm]
      obtain ⟨hlen1, hpos1⟩ := mapRowsO_getD dReminder dReminder df df1 hm
      have hi1 : i < df1.length := by rw [hlen1]; exact hi
      rw [heq, getD_map_of_lt _ _ i dReminder dReminder hi1]
      rcases Option.map_eq_some'.mp (hpos1 i hi) with ⟨hv, hsched, hrec⟩
      rw [← hrec]
      exact ⟨by simp [heq, hlen1], rfl, rfl, rfl, rfl, rfl, rfl, by simp, rfl⟩

/-- Concrete instances of trainPreprocessFrameAmended on one-row frames:
the Risk, Hour and DayOfWeek columns are assigned and the existing fields
keep their values. -/
theorem trainPreprocessFrameAmendedWitness :
    ((healthPreprocessEffect [defaultMergedRow]).getD 0 dMerged).risk =
      some (([defaultMergedRow].getD 0 dMerged).hasAnyAlert) ∧
    ((fallPreprocessEffect [dSafety]).getD 0 dSafety).hour =
      some (hourOfInstant (([dSafety].getD 0 dSafety).ts)) ∧
    ((reminderPreprocessEffect [wReminderStr]).getD 0 dReminder).dayOfWeek =
      some (dowOfInstant (([wReminderStr].getD 0 dReminder).ts)) := by
  refine ⟨?_, ?_, ?_⟩
  · exact (trainPreprocessFrameAmended.1 [defaultMergedRow] 0 (by decide)).2.2.2.2.2.2
  · exact (trainPreprocessFrameAmended.2.1 [dSafety] 0 (by decide)).2.2.2.2.2.2.2.2.2.2.2
  · have h3 := trainPreprocessFrameAmended.2.2 [wReminderStr] 0 (by decide)
    have hneq : ¬ (reminderPreprocessEffect [wReminderStr] = [wReminderStr]) := by decide
    exact (h3.resolve_left hneq).2.2.2.2.2.2.2.2

end ElderCare
